import Mathlib

/-!
# Verification of the waku-codex-react client core

Shallow embedding of the repository's service layer:

* `src/src/utils/TypedEventEmitter.ts` — the event bus;
* `src/src/services/waku/WakuService.ts` — connection lifecycle, bootstrap
  dialing, peer monitoring and reconnection;
* the Codex service (`CodexService`) — health-check caching, upload
  progress and abort handling;
* the protobuf message protocol (`ProtobufProtocol`) — encode/decode over
  the protobuf wire format;
* `src/src/hooks/codex/useFileUpload.ts` — upload state settlement.

Pure functions are translated to Lean functions; stateful methods become
explicit state-passing functions; JavaScript exceptions become `Except`
results; the external world (dial outcomes, HTTP responses, timers) is
passed in as explicit data.
-/

namespace WakuCodex

/-- `ServiceStatus` from `src/src/types/services.ts`:
`'idle' | 'connecting' | 'connected' | 'disconnected' | 'error'`. -/
inductive ServiceStatus
  | idle
  | connecting
  | connected
  | disconnected
  | error
deriving DecidableEq, Repr

/-- Model of the `ServiceError` class from `src/src/types/services.ts`:
message, machine-readable code, owning service, recoverable flag, and the
`details.errors` list used by `BOOTSTRAP_FAILED` errors. -/
structure ServiceError where
  message : String
  code : String
  service : String
  recoverable : Bool
  errors : List String
deriving DecidableEq, Repr

/-- A JavaScript exception value: either a plain untyped `Error` (as thrown
by third-party libraries) or a typed `ServiceError` subclass
(`WakuError` / `CodexError`). -/
inductive JsError
  | plain (message : String)
  | typed (e : ServiceError)
deriving DecidableEq, Repr

/-- Whether a thrown value is a typed `ServiceError` subclass
(`e instanceof ServiceError`). -/
def JsError.isTyped : JsError → Bool
  | .plain _ => false
  | .typed _ => true

/-- `new WakuError(message, code, details)` from `src/src/types/waku.ts`:
a `ServiceError` with service `"waku"` and `recoverable = true`. -/
def WakuError (message code : String) (errors : List String) : ServiceError :=
  ⟨message, code, "waku", true, errors⟩

/-- `new CodexError(message, code, details)`: a `ServiceError` with service
`"codex"` and `recoverable = true`. -/
def CodexError (message code : String) : ServiceError :=
  ⟨message, code, "codex", true, []⟩

/-- Events of `ServiceEvents` from `src/src/types/services.ts`, as emitted by
the services. -/
inductive Event
  | statusChange (s : ServiceStatus)
  | errorEvent (e : ServiceError)
  | connectEvt
  | disconnectEvt
deriving DecidableEq, Repr

end WakuCodex

deriving instance DecidableEq for Except

namespace WakuCodex.Emitter

/-!
## TypedEventEmitter (`src/src/utils/TypedEventEmitter.ts`)

The handler registry for one event name is a `Set<Function>`: handlers are
kept in insertion order with identity de-duplication.  `emit` iterates the
set with `forEach`, wrapping each invocation in `try/catch` and logging a
caught exception with `console.error`.  We model handler identities as
naturals and a handler's behaviour on the emitted argument as an oracle
`run : Nat → α → Except String Unit` (`Except.error` = the handler threw).
-/

/-- Handler registry for one event name: insertion-ordered, de-duplicated,
mirroring the JS `Set<Function>`. -/
structure Registry where
  handlers : List Nat
deriving DecidableEq, Repr

/-- `on(event, handler)`: `Set.add` — appends unless already present. -/
def Registry.on (r : Registry) (h : Nat) : Registry :=
  if h ∈ r.handlers then r else ⟨r.handlers ++ [h]⟩

/-- `off(event, handler)`: `Set.delete` — removes the handler if present. -/
def Registry.off (r : Registry) (h : Nat) : Registry :=
  ⟨r.handlers.filter (· ≠ h)⟩

/-- One `forEach` step of `emit`: invoke the handler with the emitted
argument inside `try/catch`; a thrown error is appended to the console log
instead of propagating. The first accumulator component records the
invocations performed (handler, argument), the second the logged errors. -/
def emitStep {α : Type} (run : Nat → α → Except String Unit) (a : α)
    (acc : List (Nat × α) × List String) (h : Nat) : List (Nat × α) × List String :=
  (acc.1 ++ [(h, a)],
    match run h a with
    | .ok _ => acc.2
    | .error e => acc.2 ++ [e])

/-- `emit(event, ...args)`: iterate all currently registered handlers in
order, each invocation isolated by `try/catch`.  Returns the invocation
trace and the console error log; `emit` itself never throws. -/
def Registry.emit {α : Type} (r : Registry) (run : Nat → α → Except String Unit)
    (a : α) : List (Nat × α) × List String :=
  r.handlers.foldl (emitStep run a) ([], [])

end WakuCodex.Emitter

namespace WakuCodex.Waku

open WakuCodex

/-!
## WakuService (`src/src/services/waku/WakuService.ts`)
-/

/-- `PEER_CHECK_INTERVAL` (ms) from the waku constants file. -/
def PEER_CHECK_INTERVAL : Nat := 5000

/-- `PEER_DISCOVERY_TIMEOUT` (ms) from the waku constants file. -/
def PEER_DISCOVERY_TIMEOUT : Nat := 15000

/-- A bootstrap candidate together with the outcome `node.dial(addr)` would
have in this run (the network is an oracle of the embedding). -/
structure Candidate where
  addr : String
  outcome : Except String Unit
deriving DecidableEq, Repr

/-- The error message string recorded for a failed candidate (its dial
rejection), or `""` for a successful one. -/
def Candidate.errMsg (c : Candidate) : String :=
  match c.outcome with
  | .ok _ => ""
  | .error e => e

/-- The `for (const peer of this.config.bootstrap)` loop body of
`connectToBootstrapNodes`: try each candidate in order, `break` on the
first successful dial, push the error otherwise.  Returns the list of
addresses actually dialed (in dial order), the accumulated per-candidate
errors, and the final `connected` flag. -/
def bootstrapLoop : List Candidate → List String × List String × Bool
  | [] => ([], [], false)
  | c :: rest =>
    match c.outcome with
    | .ok _ => ([c.addr], [], true)
    | .error e =>
      let (dialed, errs, connected) := bootstrapLoop rest
      (c.addr :: dialed, e :: errs, connected)

/-- `WakuService.connectToBootstrapNodes` (lines 221–250): run the dial
loop; if no candidate connected, throw
`WakuError('Failed to connect to any bootstrap node', 'BOOTSTRAP_FAILED', { errors })`.
Returns the dialed addresses alongside the result. -/
def connectToBootstrapNodes (bootstrap : List Candidate) :
    List String × Except ServiceError Unit :=
  let (dialed, errs, connected) := bootstrapLoop bootstrap
  (dialed,
    if connected then .ok ()
    else .error (WakuError "Failed to connect to any bootstrap node" "BOOTSTRAP_FAILED" errs))

/-- Model of the `LightNode` handle as far as the service observes it:
its current libp2p connection count and whether `stop()` has been called. -/
structure NodeModel where
  connections : Nat
  stopped : Bool
deriving DecidableEq, Repr

/-- The mutable fields of a `WakuService` instance that the embedded
methods touch, plus the trace of events emitted so far and a counter of
underlying connection attempts (incremented when a `connect` call passes
the idempotency guard and begins creating the light node). -/
structure WakuState where
  node : Option NodeModel
  status : ServiceStatus
  monitoring : Bool
  subscriptions : List String
  events : List Event
  attempts : Nat
deriving DecidableEq, Repr

/-- The freshly constructed service: `node = null`, `_status = 'idle'`,
no monitoring timer, no subscriptions. -/
def WakuState.initial : WakuState :=
  ⟨none, .idle, false, [], [], 0⟩

/-- The `peers` getter (lines 51–54): `0` if `node` is `null`, else the
live `libp2p.getConnections().length`. -/
def WakuState.peers (s : WakuState) : Nat :=
  match s.node with
  | none => 0
  | some n => n.connections

/-- `isConnected()` (lines 119–121): status is `'connected'` and the node
handle is non-null. -/
def WakuState.isConnected (s : WakuState) : Bool :=
  s.status == .connected && s.node.isSome

/-- `setStatus` (lines 301–306): update `_status` and emit `statusChange`
only when the value actually changes. -/
def setStatus (s : WakuState) (st : ServiceStatus) : WakuState :=
  if s.status ≠ st then
    { s with status := st, events := s.events ++ [.statusChange st] }
  else s

/-- `handleError` (lines 308–319): wrap a non-`WakuError` into a
`WakuError` with the given code, set status `'error'`, emit the error. -/
def handleError (s : WakuState) (e : JsError) (code : String) : WakuState :=
  let w :=
    match e with
    | .typed se => se
    | .plain m => WakuError m code []
  let s1 := setStatus s .error
  { s1 with events := s1.events ++ [.errorEvent w] }

/-- The external world of one `connect` run: the outcome of
`createLightNode(...)` + `node.start()` (a running node on success), the
dial outcome of each bootstrap candidate, and the outcome of
`waitForRemotePeer` (`waitForPeers`). -/
structure ConnectEnv where
  createResult : Except String Nat
  bootstrap : List Candidate
  waitResult : Except String Unit

/-- The first synchronous segment of `connect` past the idempotency
guard (lines 61–65): `setStatus('connecting')` and enter
`createLightNode` — the underlying connection attempt begins here, before
the first `await` suspends the call. -/
def connectPhase1 (s : WakuState) : WakuState :=
  let s1 := setStatus s .connecting
  { s1 with attempts := s1.attempts + 1 }

/-- `waitForPeers` (lines 252–268): a failure of `waitForRemotePeer` is
wrapped into `WakuError('Failed to find peers', 'PEER_DISCOVERY_FAILED')`. -/
def waitForPeers (waitResult : Except String Unit) : Except ServiceError Unit :=
  match waitResult with
  | .ok _ => .ok ()
  | .error _ => .error (WakuError "Failed to find peers" "PEER_DISCOVERY_FAILED" [])

/-- The `try` body of `connect` after the guard (lines 61–82), already in
`'connecting'` status: create and start the node, dial bootstrap
candidates, wait for peers, start monitoring, set `'connected'` and emit
`connect`.  Any failure is rethrown after `handleError(error,
'CONNECTION_FAILED')`. -/
def connectBody (env : ConnectEnv) (s1 : WakuState) : WakuState × Except JsError Unit :=
  match env.createResult with
  | .error msg =>
    -- `this.node = await createLightNode(...)` threw: the assignment never
    -- happened, so the `node` field keeps its previous value.
    (handleError s1 (.plain msg) "CONNECTION_FAILED", .error (.plain msg))
  | .ok conns =>
    let s2 := { s1 with node := some ⟨conns, false⟩ }
    match (connectToBootstrapNodes env.bootstrap).2 with
    | .error be =>
      (handleError s2 (.typed be) "CONNECTION_FAILED", .error (.typed be))
    | .ok _ =>
      match waitForPeers env.waitResult with
      | .error we =>
        (handleError s2 (.typed we) "CONNECTION_FAILED", .error (.typed we))
      | .ok _ =>
        let s3 := { s2 with monitoring := true }
        let s4 := setStatus s3 .connected
        ({ s4 with events := s4.events ++ [.connectEvt] }, .ok ())

/-- `connect()` (lines 56–87): return immediately when already
`'connected'` or `'connecting'`; otherwise run the connection attempt. -/
def connect (env : ConnectEnv) (s : WakuState) : WakuState × Except JsError Unit :=
  if s.status = .connected ∨ s.status = .connecting then (s, .ok ())
  else connectBody env (connectPhase1 s)

/-- The reconnection environment: dial outcomes and peer-wait outcome for
one `attemptReconnection` run. -/
structure ReconEnv where
  bootstrap : List Candidate
  waitResult : Except String Unit

/-- `attemptReconnection` (lines 291–299): redial bootstrap nodes and wait
for peers; success sets `'connected'`, failure is routed to
`handleError(error, 'RECONNECTION_FAILED')` and not rethrown. -/
def attemptReconnection (env : ReconEnv) (s : WakuState) : WakuState :=
  match (connectToBootstrapNodes env.bootstrap).2 with
  | .error be => handleError s (.typed be) "RECONNECTION_FAILED"
  | .ok _ =>
    match waitForPeers env.waitResult with
    | .error we => handleError s (.typed we) "RECONNECTION_FAILED"
    | .ok _ => setStatus s .connected

/-- One tick of the `setInterval` callback installed by
`startPeerMonitoring` (lines 270–289): do nothing without a node; if the
live peer count is zero while the status is `'connected'`, emit a
`PEERS_LOST` error (via `handleError`, which also sets status `'error'`)
and start one reconnection attempt.  The second component counts the
reconnection attempts started by this tick. -/
def monitorTick (env : ReconEnv) (s : WakuState) : WakuState × Nat :=
  match s.node with
  | none => (s, 0)
  | some n =>
    if n.connections = 0 ∧ s.status = .connected then
      let s1 := handleError s (.plain "Lost connection to all peers") "PEERS_LOST"
      (attemptReconnection env s1, 1)
    else (s, 0)

end WakuCodex.Waku

namespace WakuCodex.Codex

open WakuCodex

/-!
## CodexService (`CodexService` source file) and
`src/src/hooks/codex/useFileUpload.ts`
-/

/-- `STATUS_CACHE_DURATION` from `src/src/services/codex/constants.ts`:
30000 ms. -/
def STATUS_CACHE_DURATION : Int := 30000

/-- The two cache fields of `CodexService`: `lastStatusCheck` (a `Date`,
modelled as a millisecond timestamp) and `lastNodeActive`. -/
structure HealthState where
  lastStatusCheck : Option Int
  lastNodeActive : Bool
deriving DecidableEq, Repr

/-- Result of one `checkHealth` call: the returned boolean, the cache
state afterwards, and whether the HTTP probe (`GET /v1/debug/info`) was
actually issued. -/
structure HealthResult where
  value : Bool
  state : HealthState
  probed : Bool
deriving DecidableEq, Repr

/-- The freshness test of `checkHealth`:
`Date.now() - lastStatusCheck.getTime() < STATUS_CACHE_DURATION`, guarded
by `this.lastStatusCheck` being non-null. -/
def cacheFresh (s : HealthState) (now : Int) : Bool :=
  match s.lastStatusCheck with
  | none => false
  | some t => now - t < STATUS_CACHE_DURATION

/-- `checkHealth(forceCheck = false)` (lines 229–258): return the cached
value when not forcing and the cache is fresh; otherwise issue the probe —
on success store `{status == 200, now}` and return it, on any thrown error
store `{false, now}` and return `false`.  `probe` is the outcome of the
HTTP request, carrying the response status on success. -/
def checkHealth (forceCheck : Bool) (now : Int) (probe : Except String Nat)
    (s : HealthState) : HealthResult :=
  if !forceCheck && cacheFresh s now then
    ⟨s.lastNodeActive, s, false⟩
  else
    match probe with
    | .ok httpStatus =>
      let isActive := httpStatus == 200
      ⟨isActive, ⟨some now, isActive⟩, true⟩
    | .error _ => ⟨false, ⟨some now, false⟩, true⟩

/-- The mutable fields of a `CodexService` instance the embedded methods
touch, plus the emitted-event trace and the underlying connection-attempt
counter. -/
structure CodexState where
  status : ServiceStatus
  health : HealthState
  nodeInfoSet : Bool
  events : List Event
  attempts : Nat
deriving DecidableEq, Repr

/-- `CodexService.setStatus` (lines 332–337): update `_status` and emit
`statusChange` only when the value actually changes. -/
def setStatus (s : CodexState) (st : ServiceStatus) : CodexState :=
  if s.status ≠ st then
    { s with status := st, events := s.events ++ [.statusChange st] }
  else s

/-- `CodexService.handleError` (lines 339–350): wrap a non-`CodexError`
into a `CodexError` with the given code, set status `'error'`, emit the
error. -/
def handleError (s : CodexState) (e : JsError) (code : String) : CodexState :=
  let c :=
    match e with
    | .typed se => se
    | .plain m => CodexError m code
  let s1 := setStatus s .error
  { s1 with events := s1.events ++ [.errorEvent c] }

/-- The external world of one `CodexService.connect` run: the current
time, the health-probe outcome, and the `getNodeInfo` outcome. -/
structure ConnectEnv where
  now : Int
  probe : Except String Nat
  nodeInfoResult : Except String Unit

/-- The first synchronous segment of `CodexService.connect` past the
idempotency guard (lines 60–69): `setStatus('connecting')` and enter
`checkHealth` — the underlying connection attempt begins here, before the
first `await` suspends the call. -/
def connectPhase1 (s : CodexState) : CodexState :=
  let s1 := setStatus s .connecting
  { s1 with attempts := s1.attempts + 1 }

/-- The `try` body of `CodexService.connect` after the guard
(lines 65–82): check node health (unforced), throw
`CodexError('Codex node is not healthy', 'NODE_UNHEALTHY')` when
unhealthy, fetch node info, set `'connected'` and emit `connect`; any
failure is rethrown after `handleError(error, 'CONNECTION_FAILED')`. -/
def connectBody (env : ConnectEnv) (s1 : CodexState) : CodexState × Except JsError Unit :=
  let hr := checkHealth false env.now env.probe s1.health
  let s2 := { s1 with health := hr.state }
  if !hr.value then
    let e := JsError.typed (CodexError "Codex node is not healthy" "NODE_UNHEALTHY")
    (handleError s2 e "CONNECTION_FAILED", .error e)
  else
    match env.nodeInfoResult with
    | .error _ =>
      let e := JsError.typed (CodexError "Failed to get node info" "NODE_INFO_FAILED")
      (handleError s2 e "CONNECTION_FAILED", .error e)
    | .ok _ =>
      let s3 := { s2 with nodeInfoSet := true }
      let s4 := setStatus s3 .connected
      ({ s4 with events := s4.events ++ [.connectEvt] }, .ok ())

/-- `CodexService.connect()` (lines 60–83): return immediately when
already `'connected'` or `'connecting'`; otherwise run the connection
attempt. -/
def connect (env : ConnectEnv) (s : CodexState) : CodexState × Except JsError Unit :=
  if s.status = .connected ∨ s.status = .connecting then (s, .ok ())
  else connectBody env (connectPhase1 s)

/-- The `xhr.upload.onprogress` handler installed by `CodexService.upload`
(lines 107–114): when an `onProgress` option was supplied and the
transport reports a computable length, the callback receives
`(event.loaded / event.total) * 100`; otherwise no callback fires.
Byte counts are modelled as rationals (exact JS arithmetic on the cited
inputs). -/
def uploadProgressEvent (onProgressSet lengthComputable : Bool)
    (loaded total : ℚ) : Option ℚ :=
  if onProgressSet && lengthComputable then some (loaded / total * 100) else none

/-- How the XHR of one upload settles: `onload` with a response status
(the 200-response body already parsed by `parseUploadResponse`, which is
total — it falls back to the trimmed raw text), `onerror`, or `onabort`. -/
inductive XhrOutcome
  | load (status : Nat) (parsed : String × Nat)
  | netError
  | aborted
deriving DecidableEq, Repr

/-- The abort wiring of `CodexService.upload` (lines 156–159): when a
cancel signal was supplied and fires mid-flight, its listener calls
`xhr.abort()`, so the request settles through `onabort` regardless of what
the transport would otherwise have delivered. -/
def uploadOutcome (signalFires : Bool) (transport : XhrOutcome) : XhrOutcome :=
  if signalFires then .aborted else transport

/-- The settlement of the upload promise (lines 116–145): `onload` with
status 200 resolves with the parsed result, any other status rejects with
`UPLOAD_FAILED`, `onerror` rejects with `NETWORK_ERROR`, and `onabort`
rejects with `CodexError('Upload aborted', 'UPLOAD_ABORTED')`. -/
def uploadSettle : XhrOutcome → Except ServiceError (String × Nat)
  | .load status parsed =>
    if status = 200 then .ok parsed
    else .error (CodexError ("Upload failed with status " ++ toString status) "UPLOAD_FAILED")
  | .netError => .error (CodexError "Network error during upload" "NETWORK_ERROR")
  | .aborted => .error (CodexError "Upload aborted" "UPLOAD_ABORTED")

/-- `UploadState.status` from `src/src/hooks/codex/useFileUpload.ts`
(lines 5–12): `'pending' | 'uploading' | 'completed' | 'failed'` — the
exhaustive enumeration of terminal and non-terminal upload states the
hook can store. -/
inductive UploadStatus
  | pending
  | uploading
  | completed
  | failed
deriving DecidableEq, Repr

/-- The `try/catch` of `useFileUpload.upload` (lines 43–83): a resolved
service call settles the tracked upload as `'completed'`, any rejection
settles it as `'failed'` (storing the error). -/
def settleUpload (res : Except ServiceError (String × Nat)) : UploadStatus :=
  match res with
  | .ok _ => .completed
  | .error _ => .failed

end WakuCodex.Codex

namespace WakuCodex.Proto

open WakuCodex

/-!
## ProtobufProtocol (the protobuf protocol source file)

`ProtobufProtocol` builds a dynamic protobuf `Type` from a schema and
delegates `encode`/`decode` to the protobuf wire codec.  We embed the wire
format (base-128 varints, length-delimited fields, `fieldNo <<< 3 ||| wireType`
keys) for a concrete instance of the reference deployment's
`WakuFileMessage` schema, restricted to its integer and string fields
(`timestamp : uint64 = 1`, `sender : string = 2`, `fileId : string = 3`);
strings appear on the wire as their UTF-8 bytes, modelled as byte lists.
Bytes are naturals below 256.
-/

/-- Base-128 varint encoding of a natural: low 7 bits first, continuation
bit `0x80` on every byte but the last. -/
def varintEncode (n : Nat) : List Nat :=
  if h : n < 128 then [n]
  else (n % 128 + 128) :: varintEncode (n / 128)
termination_by n
decreasing_by exact Nat.div_lt_self (by omega) (by omega)

/-- Base-128 varint decoding: returns the value and the remaining bytes,
or the protobuf reader's `"index out of range"` error on truncation. -/
def varintDecode : List Nat → Except String (Nat × List Nat)
  | [] => .error "index out of range"
  | b :: rest =>
    if b < 128 then .ok (b, rest)
    else
      match varintDecode rest with
      | .ok (v, rem) => .ok (b - 128 + 128 * v, rem)
      | .error e => .error e

/-- A length-delimited payload: decode the length varint, then split off
that many bytes; overrunning the buffer is the reader's
`"index out of range"` error. -/
def readLenDelim (bs : List Nat) : Except String (List Nat × List Nat) :=
  match varintDecode bs with
  | .error e => .error e
  | .ok (len, rest) =>
    if len ≤ rest.length then .ok (rest.take len, rest.drop len)
    else .error "index out of range"

/-- The modelled message type: the non-float fields of the
`WakuFileMessage` reference schema.  String fields are their UTF-8 byte
sequences. -/
structure FileMessage where
  timestamp : Nat
  sender : List Nat
  fileId : List Nat
deriving DecidableEq, Repr

/-- A length-delimited field: key varint, length varint, payload bytes. -/
def encodeLenDelim (key : Nat) (payload : List Nat) : List Nat :=
  varintEncode key ++ varintEncode payload.length ++ payload

/-- The writer side of the dynamic protobuf type: field 1 as a varint
(key `1 <<< 3 ||| 0 = 8`), fields 2 and 3 length-delimited (keys
`2 <<< 3 ||| 2 = 18` and `3 <<< 3 ||| 2 = 26`), in schema order. -/
def wireEncode (m : FileMessage) : List Nat :=
  varintEncode 8 ++ varintEncode m.timestamp ++
    encodeLenDelim 18 m.sender ++ encodeLenDelim 26 m.fileId

/-- The reader's `skipType`: skip a field of unknown number according to
its wire type (varint, 64-bit, length-delimited, 32-bit); any other wire
type is the reader's `"invalid wire type"` error. -/
def skipField (wireType : Nat) (bs : List Nat) : Except String (List Nat) :=
  if wireType = 0 then
    match varintDecode bs with
    | .ok (_, rem) => .ok rem
    | .error e => .error e
  else if wireType = 1 then
    if 8 ≤ bs.length then .ok (bs.drop 8) else .error "index out of range"
  else if wireType = 2 then
    match readLenDelim bs with
    | .ok (_, rem) => .ok rem
    | .error e => .error e
  else if wireType = 5 then
    if 4 ≤ bs.length then .ok (bs.drop 4) else .error "index out of range"
  else .error ("invalid wire type " ++ toString wireType)

/-- The reader loop of the dynamic protobuf `decode`: while bytes remain,
read a key, dispatch on field number and wire type, store known fields,
skip unknown ones.  `fuel` bounds the iteration count; `wireDecode`
supplies more fuel than there are bytes, so it never runs out. -/
def wireDecodeLoop : Nat → List Nat → FileMessage → Except String FileMessage
  | _, [], acc => .ok acc
  | 0, _ :: _, _ => .error "index out of range"
  | fuel + 1, b :: tl, acc =>
    match varintDecode (b :: tl) with
    | .error e => .error e
    | .ok (key, rest) =>
      if key / 8 = 1 ∧ key % 8 = 0 then
        match varintDecode rest with
        | .error e => .error e
        | .ok (v, rem) => wireDecodeLoop fuel rem { acc with timestamp := v }
      else if key / 8 = 2 ∧ key % 8 = 2 then
        match readLenDelim rest with
        | .error e => .error e
        | .ok (payload, rem) => wireDecodeLoop fuel rem { acc with sender := payload }
      else if key / 8 = 3 ∧ key % 8 = 2 then
        match readLenDelim rest with
        | .error e => .error e
        | .ok (payload, rem) => wireDecodeLoop fuel rem { acc with fileId := payload }
      else
        match skipField (key % 8) rest with
        | .error e => .error e
        | .ok rem => wireDecodeLoop fuel rem acc

/-- The dynamic protobuf `Type.decode` over the modelled schema, starting
from the all-defaults message instance. -/
def wireDecode (bs : List Nat) : Except String FileMessage :=
  wireDecodeLoop (bs.length + 1) bs ⟨0, [], []⟩

/-- A string field's value is representable iff it is a byte sequence. -/
def isByteString (bs : List Nat) : Bool :=
  bs.all (· < 256)

/-- `protoType.verify(message)`: the dynamic type's representation check
(`"<field>: string expected"` style messages); `none` means verified. -/
def FileMessage.verify (m : FileMessage) : Option String :=
  if !isByteString m.sender then some "sender: string expected"
  else if !isByteString m.fileId then some "fileId: string expected"
  else none

/-- The application-level validator bound to the protocol instance
(`validator` passed to the `ProtobufProtocol` constructor), mirroring the
reference app's type-checking validator: every field is representable and
a file identifier is present. -/
def FileMessage.validate (m : FileMessage) : Bool :=
  isByteString m.sender && isByteString m.fileId && !m.fileId.isEmpty

/-- `ProtobufProtocol.encode` (lines 33–41): run `protoType.verify`;
throw a plain ``Error(`Invalid message: ...`)`` on a verification error,
else emit the wire bytes. -/
def encode (m : FileMessage) : Except JsError (List Nat) :=
  match m.verify with
  | some err => .error (.plain ("Invalid message: " ++ err))
  | none => .ok (wireEncode m)

/-- `ProtobufProtocol.decode` (lines 43–46): delegate to the wire reader
with no wrapping — a reader failure propagates as the library's plain
untyped `Error`. -/
def decode (bs : List Nat) : Except JsError FileMessage :=
  match wireDecode bs with
  | .ok m => .ok m
  | .error e => .error (.plain e)

end WakuCodex.Proto

/-! ## Theorems -/

namespace WakuCodex.Proto

theorem varintDecode_encode (n : Nat) (rest : List Nat) :
    varintDecode (varintEncode n ++ rest) = .ok (n, rest) := by
  induction n using Nat.strong_induction_on with
  | _ n ih =>
    rw [varintEncode]
    by_cases h : n < 128
    · rw [dif_pos h]
      simp [varintDecode, h]
    · rw [dif_neg h]
      have hdiv : n / 128 < n := Nat.div_lt_self (by omega) (by omega)
      have hb : ¬(n % 128 + 128 < 128) := by omega
      have hval : n % 128 + 128 - 128 + 128 * (n / 128) = n := by omega
      simp only [List.cons_append, varintDecode, if_neg hb, List.append_eq,
        ih (n / 128) hdiv, hval]

theorem readLenDelim_encode (payload rest : List Nat) :
    readLenDelim (varintEncode payload.length ++ (payload ++ rest)) = .ok (payload, rest) := by
  have hle : payload.length ≤ (payload ++ rest).length := by
    simp [List.length_append]
  unfold readLenDelim
  rw [varintDecode_encode]
  simp [hle, List.take_left, List.drop_left]

theorem loopStepTimestamp (fuel t : Nat) (rest : List Nat) (acc : FileMessage) :
    wireDecodeLoop (fuel + 1) (8 :: (varintEncode t ++ rest)) acc =
      wireDecodeLoop fuel rest { acc with timestamp := t } := by
  have h : varintDecode (8 :: (varintEncode t ++ rest)) = .ok (8, varintEncode t ++ rest) := by
    simp [varintDecode]
  simp only [wireDecodeLoop, h, varintDecode_encode]
  norm_num

theorem loopStepLen2 (fuel : Nat) (payload rest : List Nat) (acc : FileMessage) :
    wireDecodeLoop (fuel + 1) (18 :: (varintEncode payload.length ++ (payload ++ rest))) acc =
      wireDecodeLoop fuel rest { acc with sender := payload } := by
  have h : varintDecode (18 :: (varintEncode payload.length ++ (payload ++ rest))) =
      .ok (18, varintEncode payload.length ++ (payload ++ rest)) := by
    simp [varintDecode]
  simp only [wireDecodeLoop, h, readLenDelim_encode]
  norm_num

theorem loopStepLen3 (fuel : Nat) (payload rest : List Nat) (acc : FileMessage) :
    wireDecodeLoop (fuel + 1) (26 :: (varintEncode payload.length ++ (payload ++ rest))) acc =
      wireDecodeLoop fuel rest { acc with fileId := payload } := by
  have h : varintDecode (26 :: (varintEncode payload.length ++ (payload ++ rest))) =
      .ok (26, varintEncode payload.length ++ (payload ++ rest)) := by
    simp [varintDecode]
  simp only [wireDecodeLoop, h, readLenDelim_encode]
  norm_num

theorem wireDecodeLoop_encode (m acc : FileMessage) (k : Nat) :
    wireDecodeLoop (k + 4) (wireEncode m) acc =
      .ok ⟨m.timestamp, m.sender, m.fileId⟩ := by
  have h8 : varintEncode 8 = [8] := by simp [varintEncode]
  have h18 : varintEncode 18 = [18] := by simp [varintEncode]
  have h26 : varintEncode 26 = [26] := by simp [varintEncode]
  have hshape : wireEncode m =
      8 :: (varintEncode m.timestamp ++
        (18 :: (varintEncode m.sender.length ++ (m.sender ++
          (26 :: (varintEncode m.fileId.length ++ (m.fileId ++ []))))))) := by
    unfold wireEncode encodeLenDelim
    rw [h8, h18, h26]
    simp [List.append_assoc]
  rw [hshape]
  rw [show k + 4 = (k + 3) + 1 from rfl, loopStepTimestamp]
  rw [show k + 3 = (k + 2) + 1 from rfl, loopStepLen2]
  rw [show k + 2 = (k + 1) + 1 from rfl, loopStepLen3]
  simp [wireDecodeLoop]

theorem varintEncode_length_pos (n : Nat) : 1 ≤ (varintEncode n).length := by
  rw [varintEncode]
  split <;> simp

/-- C3 (amended): for every message accepted by the protocol's `validate`,
`encode` succeeds and `decode (encode m)` is structurally equal to `m`;
decode failures on corrupt or truncated input are always the underlying
protobuf reader's plain untyped `Error`, never a typed `ServiceError`
(`DecodingError`) — `ProtobufProtocol.decode` performs no error wrapping. -/
theorem C3_protocol_roundtrip (m : FileMessage) (h : m.validate = true) :
    encode m = .ok (wireEncode m) ∧
    decode (wireEncode m) = .ok m ∧
    ∀ bs e, decode bs = .error e → e.isTyped = false := by
  refine ⟨?_, ?_, ?_⟩
  · unfold FileMessage.validate at h
    simp only [Bool.and_eq_true] at h
    unfold encode FileMessage.verify
    simp [h.1.1, h.1.2]
  · have hlen : ∃ k, (wireEncode m).length + 1 = k + 4 := by
      have h1 := varintEncode_length_pos 8
      have h2 := varintEncode_length_pos m.timestamp
      have h3 := varintEncode_length_pos m.sender.length
      have h4 := varintEncode_length_pos m.fileId.length
      refine ⟨(wireEncode m).length - 3, ?_⟩
      unfold wireEncode encodeLenDelim
      simp only [List.length_append]
      omega
    obtain ⟨k, hk⟩ := hlen
    unfold decode wireDecode
    rw [hk, wireDecodeLoop_encode]
  · intro bs e hbs
    unfold decode at hbs
    cases hw : wireDecode bs with
    | ok v => rw [hw] at hbs; cases hbs
    | error s =>
      rw [hw] at hbs
      cases hbs
      rfl

/-- C3 witness: a concrete valid message round-trips through the codec. -/
theorem C3_protocol_roundtrip_witness :
    FileMessage.validate ⟨300, [104, 105], [102]⟩ = true ∧
    decode (wireEncode ⟨300, [104, 105], [102]⟩) = .ok ⟨300, [104, 105], [102]⟩ :=
  ⟨by decide, (C3_protocol_roundtrip ⟨300, [104, 105], [102]⟩ (by decide)).2.1⟩

/-- C3 counterexample: on the truncated input `[0x08]` (a field key with
its value missing) `decode` fails with the reader's plain untyped
`"index out of range"` error, which is not a typed `DecodingError` — the
claim that decode failures are typed is false on the code. -/
theorem C3_decode_untyped_counterexample :
    decode [8] = .error (.plain "index out of range") ∧
    JsError.isTyped (.plain "index out of range") = false :=
  ⟨rfl, rfl⟩

end WakuCodex.Proto

namespace WakuCodex.Emitter

/-- Whether handler `h` throws on argument `a` under behaviour `run`. -/
def throws {α : Type} (run : Nat → α → Except String Unit) (a : α) (h : Nat) : Bool :=
  match run h a with
  | .ok _ => false
  | .error _ => true

/-- The message a throwing handler is logged with. -/
def errOf {α : Type} (run : Nat → α → Except String Unit) (a : α) (h : Nat) : String :=
  match run h a with
  | .ok _ => ""
  | .error e => e

theorem emit_foldl {α : Type} (hs : List Nat) (run : Nat → α → Except String Unit)
    (a : α) (acc : List (Nat × α) × List String) :
    hs.foldl (emitStep run a) acc =
      (acc.1 ++ hs.map (fun h => (h, a)),
       acc.2 ++ (hs.filter (throws run a)).map (errOf run a)) := by
  induction hs generalizing acc with
  | nil => simp
  | cons h tl ih =>
    rw [List.foldl_cons, ih]
    unfold emitStep throws errOf
    cases hr : run h a with
    | ok _ => simp [hr]
    | error e => simp [hr]

/-- C8: one `emit` call invokes every currently registered handler, in
registration order, with the emitted argument — independently of which
handlers throw; a throwing handler's error is caught and appended to the
console log (in order), delivery continues to all later handlers, and
`emit` returns normally instead of propagating any exception. -/
theorem C8_emit_delivers_to_all {α : Type} (r : Registry)
    (run : Nat → α → Except String Unit) (a : α) :
    (r.emit run a).1 = r.handlers.map (fun h => (h, a)) ∧
    (r.emit run a).2 = (r.handlers.filter (throws run a)).map (errOf run a) := by
  unfold Registry.emit
  rw [emit_foldl]
  simp

end WakuCodex.Emitter

namespace WakuCodex.Waku

theorem outcome_error_of_not_isOk (c : Candidate) (h : c.outcome.isOk = false) :
    c.outcome = Except.error c.errMsg := by
  unfold Candidate.errMsg
  cases hc : c.outcome with
  | ok v => rw [hc] at h; cases h
  | error e => rfl

theorem bootstrapLoop_all_fail (cs : List Candidate)
    (h : ∀ x ∈ cs, x.outcome.isOk = false) :
    bootstrapLoop cs = (cs.map Candidate.addr, cs.map Candidate.errMsg, false) := by
  induction cs with
  | nil => rfl
  | cons c tl ih =>
    have he := outcome_error_of_not_isOk c (h c (List.mem_cons_self c tl))
    simp only [bootstrapLoop, he, ih (fun x hx => h x (List.mem_cons_of_mem c hx))]
    simp

theorem bootstrapLoop_first_success (pre post : List Candidate) (c : Candidate)
    (hpre : ∀ x ∈ pre, x.outcome.isOk = false)
    (hc : c.outcome = Except.ok ()) :
    bootstrapLoop (pre ++ c :: post) =
      (pre.map Candidate.addr ++ [c.addr], pre.map Candidate.errMsg, true) := by
  induction pre with
  | nil => simp [bootstrapLoop, hc]
  | cons p tl ih =>
    have he := outcome_error_of_not_isOk p (hpre p (List.mem_cons_self p tl))
    simp only [List.cons_append, bootstrapLoop, he]
    simp [ih (fun x hx => hpre x (List.mem_cons_of_mem p hx))]

/-- C1: within one `connect` call, bootstrap candidates are dialed
strictly in list order; a first successful dial stops the loop, so
candidates after it are never dialed; if every candidate fails, the call
fails with the `BOOTSTRAP_FAILED` `WakuError` whose `details.errors`
carries one error per failed candidate in candidate order, each candidate
having been dialed exactly once (no retry inside the call). -/
theorem C1_bootstrap_dial_order (pre post : List Candidate) (c : Candidate)
    (hpre : ∀ x ∈ pre, x.outcome.isOk = false) :
    (c.outcome = Except.ok () →
      connectToBootstrapNodes (pre ++ c :: post) =
        (pre.map Candidate.addr ++ [c.addr], .ok ())) ∧
    connectToBootstrapNodes pre =
      (pre.map Candidate.addr,
       .error (WakuError "Failed to connect to any bootstrap node" "BOOTSTRAP_FAILED"
         (pre.map Candidate.errMsg))) := by
  constructor
  · intro hc
    unfold connectToBootstrapNodes
    rw [bootstrapLoop_first_success pre post c hpre hc]
    simp
  · unfold connectToBootstrapNodes
    rw [bootstrapLoop_all_fail pre hpre]
    simp

/-- C1 witness: with candidates A, B failing and C succeeding, exactly
A, B, C are dialed in order and the call succeeds; with only the failing
A, B the call fails carrying their two errors in order. -/
theorem C1_bootstrap_dial_order_witness :
    connectToBootstrapNodes [⟨"A", .error "eA"⟩, ⟨"B", .error "eB"⟩, ⟨"C", .ok ()⟩] =
      (["A", "B", "C"], .ok ()) ∧
    connectToBootstrapNodes [⟨"A", .error "eA"⟩, ⟨"B", .error "eB"⟩] =
      (["A", "B"],
       .error (WakuError "Failed to connect to any bootstrap node" "BOOTSTRAP_FAILED"
         ["eA", "eB"])) := by
  have h := C1_bootstrap_dial_order [⟨"A", .error "eA"⟩, ⟨"B", .error "eB"⟩] []
    ⟨"C", .ok ()⟩ (by decide)
  exact ⟨h.1 rfl, h.2⟩

end WakuCodex.Waku

namespace WakuCodex.Codex

/-- The probe path of `checkHealth` (observer used to state C5): issue the
request, store `{status == 200, now}` on success and `{false, now}` on a
thrown error. -/
def probeRun (now : Int) (probe : Except String Nat) : HealthResult :=
  match probe with
  | .ok httpStatus => ⟨httpStatus == 200, ⟨some now, httpStatus == 200⟩, true⟩
  | .error _ => ⟨false, ⟨some now, false⟩, true⟩

/-- C5: `checkHealth` returns the cached boolean without probing when a
prior result exists, its age is under the 30 s window and no force is
requested; otherwise (stale, absent, or forced) it probes, storing
`{result, now}` on success and `{false, now}` on probe failure (returning
`false`); `forceCheck = true` always probes; and after a probing call,
any second unforced call within the window returns the first call's value
without probing — the probe runs exactly once across the two calls. -/
theorem C5_health_cache (s : HealthState) (t now now2 : Int)
    (probe probe2 : Except String Nat) :
    (s.lastStatusCheck = some t → now - t < STATUS_CACHE_DURATION →
      checkHealth false now probe s = ⟨s.lastNodeActive, s, false⟩) ∧
    (cacheFresh s now = false →
      checkHealth false now probe s = probeRun now probe) ∧
    (checkHealth true now probe s = probeRun now probe) ∧
    ((checkHealth false now probe s).probed = true → now2 - now < STATUS_CACHE_DURATION →
      checkHealth false now2 probe2 (checkHealth false now probe s).state =
        ⟨(checkHealth false now probe s).value,
         (checkHealth false now probe s).state, false⟩) := by
  refine ⟨?_, ?_, ?_, ?_⟩
  · intro hs hfresh
    have hc : cacheFresh s now = true := by
      unfold cacheFresh
      rw [hs]
      simpa using hfresh
    unfold checkHealth
    simp [hc]
  · intro hc
    unfold checkHealth probeRun
    simp [hc]
  · unfold checkHealth probeRun
    simp
  · intro hp hlt
    by_cases hc : cacheFresh s now = true
    · rw [show checkHealth false now probe s = ⟨s.lastNodeActive, s, false⟩ from by
        unfold checkHealth; simp [hc]] at hp
      cases hp
    · have h1 : checkHealth false now probe s = probeRun now probe := by
        unfold checkHealth probeRun
        simp [eq_false_of_ne_true hc]
      rw [h1]
      have hfresh2 : ∀ b : Bool, cacheFresh ⟨some now, b⟩ now2 = true := by
        intro b
        unfold cacheFresh
        simpa using hlt
      cases probe with
      | ok httpStatus =>
        unfold probeRun
        unfold checkHealth
        simp [hfresh2]
      | error e =>
        unfold probeRun
        unfold checkHealth
        simp [hfresh2]

/-- C5 witness: probe succeeds with HTTP 200 at t = 0; a second call at
t = 29000 (within the 30 s window) returns the cached `true` without
probing, and a forced call always probes. -/
theorem C5_health_cache_witness :
    checkHealth false 0 (.ok 200) ⟨none, false⟩ = ⟨true, ⟨some 0, true⟩, true⟩ ∧
    checkHealth false 29000 (.error "down") ⟨some 0, true⟩ = ⟨true, ⟨some 0, true⟩, false⟩ ∧
    checkHealth true 29000 (.ok 200) ⟨some 0, true⟩ = ⟨true, ⟨some 29000, true⟩, true⟩ := by
  refine ⟨?_, ?_, ?_⟩
  · exact (C5_health_cache ⟨none, false⟩ 0 0 0 (.ok 200) (.ok 200)).2.1 (by decide)
  · exact (C5_health_cache ⟨some 0, true⟩ 0 29000 0 (.error "down") (.ok 200)).1 rfl (by decide)
  · exact (C5_health_cache ⟨some 0, true⟩ 0 29000 0 (.ok 200) (.ok 200)).2.2.1

/-- C4 (amended): when an `onProgress` callback is supplied and the
transport reports a computable length, the callback receives the
percentage `(loaded / total) * 100` — a value in `[0, 100]`, not a
fraction in `[0, 1]` — so `loaded = 500, total = 1000` yields exactly
`50`; when the length is not computable, no progress callback fires. -/
theorem C4_upload_progress_percentage (onSet lc : Bool) (loaded total : ℚ)
    (h0 : 0 ≤ loaded) (h1 : loaded ≤ total) (h2 : 0 < total) :
    (lc = false → uploadProgressEvent onSet lc loaded total = none) ∧
    (uploadProgressEvent true true loaded total = some (loaded / total * 100) ∧
      0 ≤ loaded / total * 100 ∧ loaded / total * 100 ≤ 100) := by
  constructor
  · intro h
    simp [uploadProgressEvent, h]
  · refine ⟨by simp [uploadProgressEvent], ?_, ?_⟩
    · exact mul_nonneg (div_nonneg h0 h2.le) (by norm_num)
    · have hd : loaded / total ≤ 1 := (div_le_one h2).mpr h1
      nlinarith

/-- C4 witness: the transport event `loaded = 500, total = 1000` yields a
callback with value `500 / 1000 * 100 = 50`, and a non-computable length
yields no callback. -/
theorem C4_upload_progress_percentage_witness :
    uploadProgressEvent true false 500 1000 = none ∧
    uploadProgressEvent true true 500 1000 = some (500 / 1000 * 100) := by
  have h := C4_upload_progress_percentage true false 500 1000
    (by norm_num) (by norm_num) (by norm_num)
  exact ⟨h.1 rfl, h.2.1⟩

/-- C4 counterexample: the callback value for `loaded = 500, total = 1000`
is `50`, which is neither the fraction `1/2` nor a value in `[0, 1]` — the
claim that progress callbacks receive `bytes-sent/bytes-total ∈ [0, 1]`
(here `0.5`) is false on the code. -/
theorem C4_progress_not_fraction_counterexample :
    uploadProgressEvent true true 500 1000 = some 50 ∧
    (50 : ℚ) ≠ 1 / 2 ∧ ¬((50 : ℚ) ≤ 1) := by
  refine ⟨?_, by norm_num, by norm_num⟩
  norm_num [uploadProgressEvent]

/-- C6 (amended): a cancel signal firing mid-upload aborts the underlying
XHR (the request settles through `onabort`), and the service rejects with
the typed `CodexError` code `UPLOAD_ABORTED`; the tracked upload then
settles in the `'failed'` terminal state — there is no `Cancelled`
terminal state in `UploadState.status`, whose only members are
`'pending' | 'uploading' | 'completed' | 'failed'`. -/
theorem C6_abort_settles_failed (transport : XhrOutcome) :
    uploadOutcome true transport = .aborted ∧
    uploadSettle (uploadOutcome true transport) =
      .error (CodexError "Upload aborted" "UPLOAD_ABORTED") ∧
    settleUpload (uploadSettle (uploadOutcome true transport)) = .failed ∧
    ∀ u : UploadStatus, u = .pending ∨ u = .uploading ∨ u = .completed ∨ u = .failed := by
  refine ⟨rfl, rfl, rfl, ?_⟩
  intro u
  cases u <;> simp

/-- C6 counterexample: an upload whose cancel signal fires (here while the
transport would otherwise have delivered a 200 response) settles in the
`'failed'` terminal state, not a `Cancelled` one — no such state exists. -/
theorem C6_abort_not_cancelled_counterexample :
    settleUpload (uploadSettle (uploadOutcome true (.load 200 ("cid", 1)))) =
      UploadStatus.failed := rfl

end WakuCodex.Codex

namespace WakuCodex

/-- The payloads of the `statusChange` emissions in an event trace, in
emission order. -/
def statusEvents (evs : List Event) : List ServiceStatus :=
  evs.filterMap fun e =>
    match e with
    | .statusChange st => some st
    | _ => none

/-- The trace invariant behind C10: adjacent `statusChange` payloads are
distinct, and the most recent payload (if any) equals the stored status. -/
def traceOK (status : ServiceStatus) (evs : List Event) : Prop :=
  List.Chain' (· ≠ ·) (statusEvents evs) ∧
  ∀ last, (statusEvents evs).getLast? = some last → last = status

theorem statusEvents_append (l1 l2 : List Event) :
    statusEvents (l1 ++ l2) = statusEvents l1 ++ statusEvents l2 := by
  unfold statusEvents
  exact List.filterMap_append l1 l2 _

theorem traceOK_update (old st : ServiceStatus) (evs : List Event)
    (h : traceOK old evs) (hne : old ≠ st) :
    traceOK st (evs ++ [.statusChange st]) := by
  obtain ⟨hchain, hlast⟩ := h
  constructor
  · rw [statusEvents_append]
    rw [List.chain'_append]
    refine ⟨hchain, by simp [statusEvents], ?_⟩
    intro x hx y hy
    have hy2 : st = y := by
      simpa [statusEvents] using hy
    have hx2 : x = old := hlast x hx
    rw [hx2, ← hy2]
    exact hne
  · intro last hl
    rw [statusEvents_append] at hl
    have : statusEvents [Event.statusChange st] = [st] := by simp [statusEvents]
    rw [this, List.getLast?_concat] at hl
    exact (Option.some_inj.mp hl).symm

end WakuCodex

namespace WakuCodex.Waku

theorem waku_setStatus_traceOK (s : WakuState) (st : ServiceStatus)
    (h : traceOK s.status s.events) :
    traceOK (setStatus s st).status (setStatus s st).events := by
  unfold setStatus
  by_cases he : s.status = st
  · rw [if_neg (by simpa using he)]
    exact h
  · rw [if_pos (by simpa using he)]
    exact traceOK_update s.status st s.events h he

end WakuCodex.Waku

namespace WakuCodex.Codex

theorem codex_setStatus_traceOK (c : CodexState) (st : ServiceStatus)
    (h : traceOK c.status c.events) :
    traceOK (setStatus c st).status (setStatus c st).events := by
  unfold setStatus
  by_cases he : c.status = st
  · rw [if_neg (by simpa using he)]
    exact h
  · rw [if_pos (by simpa using he)]
    exact traceOK_update c.status st c.events h he

end WakuCodex.Codex

namespace WakuCodex

/-- C10: in both services, `setStatus` emits a `statusChange` exactly when
the stored status value changes, carrying the new value as payload (it
emits nothing when set to the current value), and it preserves the trace
invariant that consecutive `statusChange` emissions never carry equal
values (with the most recent payload equal to the stored status). -/
theorem C10_statusChange_iff_change (s : Waku.WakuState) (c : Codex.CodexState)
    (st st2 : ServiceStatus) :
    ((Waku.setStatus s st).events =
      s.events ++ if st = s.status then [] else [.statusChange st]) ∧
    (Waku.setStatus s st).status = st ∧
    (traceOK s.status s.events →
      traceOK (Waku.setStatus s st).status (Waku.setStatus s st).events) ∧
    ((Codex.setStatus c st2).events =
      c.events ++ if st2 = c.status then [] else [.statusChange st2]) ∧
    (Codex.setStatus c st2).status = st2 ∧
    (traceOK c.status c.events →
      traceOK (Codex.setStatus c st2).status (Codex.setStatus c st2).events) := by
  refine ⟨?_, ?_, Waku.waku_setStatus_traceOK s st, ?_, ?_, Codex.codex_setStatus_traceOK c st2⟩
  · unfold Waku.setStatus
    by_cases he : s.status = st
    · rw [if_neg (by simpa using he)]
      simp [he]
    · rw [if_pos (by simpa using he)]
      rw [if_neg (fun hh : st = s.status => he hh.symm)]
  · unfold Waku.setStatus
    by_cases he : s.status = st
    · rw [if_neg (by simpa using he)]
      exact he
    · rw [if_pos (by simpa using he)]
  · unfold Codex.setStatus
    by_cases he : c.status = st2
    · rw [if_neg (by simpa using he)]
      simp [he]
    · rw [if_pos (by simpa using he)]
      rw [if_neg (fun hh : st2 = c.status => he hh.symm)]
  · unfold Codex.setStatus
    by_cases he : c.status = st2
    · rw [if_neg (by simpa using he)]
      exact he
    · rw [if_pos (by simpa using he)]

/-- C10 witness: from a fresh service, setting `'connecting'` emits one
`statusChange('connecting')` and the trace invariant holds afterwards;
re-setting the same value emits nothing. -/
theorem C10_statusChange_iff_change_witness :
    (Waku.setStatus Waku.WakuState.initial .connecting).events =
      [Event.statusChange .connecting] ∧
    traceOK (Waku.setStatus Waku.WakuState.initial .connecting).status
      (Waku.setStatus Waku.WakuState.initial .connecting).events ∧
    (Codex.setStatus ⟨.idle, ⟨none, false⟩, false, [], 0⟩ .idle).events = [] := by
  have h := C10_statusChange_iff_change Waku.WakuState.initial
    ⟨.idle, ⟨none, false⟩, false, [], 0⟩ .connecting .idle
  have htr : traceOK Waku.WakuState.initial.status Waku.WakuState.initial.events := by
    constructor
    · simp [Waku.WakuState.initial, statusEvents]
    · intro last hl
      simp [Waku.WakuState.initial, statusEvents] at hl
  refine ⟨?_, ?_, ?_⟩
  · have h1 := h.1
    simpa [Waku.WakuState.initial] using h1
  · exact h.2.2.1 htr
  · have h4 := h.2.2.2.1
    simpa using h4
end WakuCodex

namespace WakuCodex

/-- C7: in both services, calling `connect` while the status is
`'connected'` or `'connecting'` is a no-op — the state (status, events,
attempt counter, everything) is returned unchanged and the call resolves
without starting an underlying attempt; and since the first synchronous
segment of an eligible `connect` sets `'connecting'` (incrementing the
attempt counter once) before suspending, a second `connect` arriving while
the first is pending leaves the state untouched — two back-to-back calls
perform exactly one underlying connection attempt. -/
theorem C7_connect_idempotent_guard (envW envW2 : Waku.ConnectEnv)
    (envC envC2 : Codex.ConnectEnv) (s : Waku.WakuState) (c : Codex.CodexState) :
    (s.status = .connected ∨ s.status = .connecting →
      Waku.connect envW s = (s, .ok ())) ∧
    (¬(s.status = .connected ∨ s.status = .connecting) →
      (Waku.connectPhase1 s).status = .connecting ∧
      (Waku.connectPhase1 s).attempts = s.attempts + 1 ∧
      Waku.connect envW2 (Waku.connectPhase1 s) = (Waku.connectPhase1 s, .ok ())) ∧
    (c.status = .connected ∨ c.status = .connecting →
      Codex.connect envC c = (c, .ok ())) ∧
    (¬(c.status = .connected ∨ c.status = .connecting) →
      (Codex.connectPhase1 c).status = .connecting ∧
      (Codex.connectPhase1 c).attempts = c.attempts + 1 ∧
      Codex.connect envC2 (Codex.connectPhase1 c) = (Codex.connectPhase1 c, .ok ())) := by
  refine ⟨?_, ?_, ?_, ?_⟩
  · intro hg
    unfold Waku.connect
    rw [if_pos hg]
  · intro hg
    have hcn : s.status ≠ .connecting := fun h => hg (Or.inr h)
    have hst : (Waku.connectPhase1 s).status = .connecting := by
      unfold Waku.connectPhase1 Waku.setStatus
      rw [if_pos (by simpa using hcn)]
    refine ⟨hst, ?_, ?_⟩
    · unfold Waku.connectPhase1 Waku.setStatus
      rw [if_pos (by simpa using hcn)]
    · unfold Waku.connect
      rw [if_pos (Or.inr hst)]
  · intro hg
    unfold Codex.connect
    rw [if_pos hg]
  · intro hg
    have hcn : c.status ≠ .connecting := fun h => hg (Or.inr h)
    have hst : (Codex.connectPhase1 c).status = .connecting := by
      unfold Codex.connectPhase1 Codex.setStatus
      rw [if_pos (by simpa using hcn)]
    refine ⟨hst, ?_, ?_⟩
    · unfold Codex.connectPhase1 Codex.setStatus
      rw [if_pos (by simpa using hcn)]
    · unfold Codex.connect
      rw [if_pos (Or.inr hst)]

/-- C7 witness: a connected Waku service ignores `connect`; a fresh idle
Waku service that starts connecting ignores a second `connect` while the
first is pending, with exactly one attempt recorded; likewise for Codex. -/
theorem C7_connect_idempotent_guard_witness :
    Waku.connect ⟨.ok 3, [], .ok ()⟩ ⟨none, .connected, false, [], [], 5⟩ =
      (⟨none, .connected, false, [], [], 5⟩, .ok ()) ∧
    (Waku.connectPhase1 Waku.WakuState.initial).attempts = 1 ∧
    Waku.connect ⟨.ok 3, [], .ok ()⟩ (Waku.connectPhase1 Waku.WakuState.initial) =
      (Waku.connectPhase1 Waku.WakuState.initial, .ok ()) ∧
    Codex.connect ⟨0, .ok 200, .ok ()⟩ ⟨.connecting, ⟨none, false⟩, false, [], 2⟩ =
      (⟨.connecting, ⟨none, false⟩, false, [], 2⟩, .ok ()) := by
  have h1 := C7_connect_idempotent_guard ⟨.ok 3, [], .ok ()⟩ ⟨.ok 3, [], .ok ()⟩
    ⟨0, .ok 200, .ok ()⟩ ⟨0, .ok 200, .ok ()⟩
    ⟨none, .connected, false, [], [], 5⟩ ⟨.connecting, ⟨none, false⟩, false, [], 2⟩
  have h2 := C7_connect_idempotent_guard ⟨.ok 3, [], .ok ()⟩ ⟨.ok 3, [], .ok ()⟩
    ⟨0, .ok 200, .ok ()⟩ ⟨0, .ok 200, .ok ()⟩
    Waku.WakuState.initial ⟨.connecting, ⟨none, false⟩, false, [], 2⟩
  have he := h2.2.1 (by decide)
  exact ⟨h1.1 (Or.inl rfl), he.2.1, he.2.2, h1.2.2.1 (Or.inr rfl)⟩
end WakuCodex

namespace WakuCodex.Waku

/-- C9: when `connect` fails after the light node was created and started
— because every bootstrap dial failed, or because the peer-discovery wait
timed out — no cleanup runs on the error path: relative to the pre-call
state only `node` (set to the created, unstopped node), `status` (set to
the error state), the emitted events and the attempt counter change;
`monitoring` and `subscriptions` are untouched, the node is not stopped,
the error is rethrown, and on any such state the `peers` getter still
reports the node's live connection count while `isConnected()` is false. -/
theorem C9_no_cleanup_on_connect_failure (s : WakuState) (conns : Nat)
    (bootstrap : List Candidate) (wait : Except String Unit) (wmsg : String)
    (hs : ¬(s.status = .connected ∨ s.status = .connecting)) :
    ((∀ x ∈ bootstrap, x.outcome.isOk = false) →
      connect ⟨.ok conns, bootstrap, wait⟩ s =
        ({ s with
            node := some ⟨conns, false⟩,
            status := .error,
            events := s.events ++ [.statusChange .connecting, .statusChange .error,
              .errorEvent (WakuError "Failed to connect to any bootstrap node"
                "BOOTSTRAP_FAILED" (bootstrap.map Candidate.errMsg))],
            attempts := s.attempts + 1 },
         .error (.typed (WakuError "Failed to connect to any bootstrap node"
           "BOOTSTRAP_FAILED" (bootstrap.map Candidate.errMsg))))) ∧
    ((connectToBootstrapNodes bootstrap).2 = .ok () → wait = .error wmsg →
      connect ⟨.ok conns, bootstrap, wait⟩ s =
        ({ s with
            node := some ⟨conns, false⟩,
            status := .error,
            events := s.events ++ [.statusChange .connecting, .statusChange .error,
              .errorEvent (WakuError "Failed to find peers" "PEER_DISCOVERY_FAILED" [])],
            attempts := s.attempts + 1 },
         .error (.typed (WakuError "Failed to find peers" "PEER_DISCOVERY_FAILED" [])))) ∧
    (∀ s2 : WakuState, s2.node = some ⟨conns, false⟩ → s2.status = .error →
      s2.peers = conns ∧ s2.isConnected = false ∧
      (∀ n, s2.node = some n → n.stopped = false)) := by
  have hcn : s.status ≠ .connecting := fun h => hs (Or.inr h)
  refine ⟨?_, ?_, ?_⟩
  · intro hfail
    have hb : (connectToBootstrapNodes bootstrap).2 =
        .error (WakuError "Failed to connect to any bootstrap node" "BOOTSTRAP_FAILED"
          (bootstrap.map Candidate.errMsg)) := by
      unfold connectToBootstrapNodes
      rw [bootstrapLoop_all_fail bootstrap hfail]
      simp
    unfold connect
    rw [if_neg hs]
    unfold connectPhase1 setStatus
    rw [if_pos (by simpa using hcn)]
    unfold connectBody
    simp only [hb]
    unfold handleError setStatus
    simp
  · intro hb hw
    unfold connect
    rw [if_neg hs]
    unfold connectPhase1 setStatus
    rw [if_pos (by simpa using hcn)]
    unfold connectBody
    simp only [hb]
    unfold waitForPeers
    rw [hw]
    unfold handleError setStatus
    simp
  · intro s2 hn hst
    refine ⟨?_, ?_, ?_⟩
    · unfold WakuState.peers
      rw [hn]
    · unfold WakuState.isConnected
      rw [hst]
      simp
    · intro n hn2
      rw [hn] at hn2
      cases hn2
      rfl

/-- C9 witness: from the fresh service, a connect run whose single
bootstrap candidate fails to dial leaves the created node in place (not
stopped), sets status `'error'`, emits the `statusChange`/`error` events,
rethrows, and the `peers` getter still reports the node's 2 live
connections while `isConnected()` is false. -/
theorem C9_no_cleanup_on_connect_failure_witness :
    connect ⟨.ok 2, [⟨"A", .error "eA"⟩], .ok ()⟩ WakuState.initial =
      ({ WakuState.initial with
          node := some ⟨2, false⟩,
          status := .error,
          events := [.statusChange .connecting, .statusChange .error,
            .errorEvent (WakuError "Failed to connect to any bootstrap node"
              "BOOTSTRAP_FAILED" ["eA"])],
          attempts := 1 },
       .error (.typed (WakuError "Failed to connect to any bootstrap node"
         "BOOTSTRAP_FAILED" ["eA"]))) ∧
    WakuState.peers { WakuState.initial with
        node := some ⟨2, false⟩, status := .error, attempts := 1 } = 2 ∧
    WakuState.isConnected { WakuState.initial with
        node := some ⟨2, false⟩, status := .error, attempts := 1 } = false := by
  have h := C9_no_cleanup_on_connect_failure WakuState.initial 2
    [⟨"A", .error "eA"⟩] (.ok ()) "" (by decide)
  have h3 := h.2.2 { WakuState.initial with
      node := some ⟨2, false⟩, status := .error, attempts := 1 } rfl rfl
  exact ⟨by simpa using h.1 (by decide), h3.1, h3.2.1⟩

end WakuCodex.Waku

namespace WakuCodex.Waku

/-- C2 counterexample: a Connected service with zero peers and an
unreachable bootstrap list: the monitoring tick itself moves the status to
the error (`Failed`) state, and the next tick starts zero reconnection
attempts — contrary to the claim that a failed reconnection does not force
the service into the Failed state and leaves it eligible for the next
tick's retry. -/
theorem C2_tick_forces_error_counterexample :
    (monitorTick ⟨[⟨"A", .error "eA"⟩], .ok ()⟩
        ⟨some ⟨0, false⟩, .connected, true, [], [], 1⟩).1.status = .error ∧
    (monitorTick ⟨[⟨"A", .error "eA"⟩], .ok ()⟩
        (monitorTick ⟨[⟨"A", .error "eA"⟩], .ok ()⟩
          ⟨some ⟨0, false⟩, .connected, true, [], [], 1⟩).1).2 = 0 := ⟨rfl, rfl⟩

/-- C2 (amended): a tick observing zero peers while Connected emits a
`PEERS_LOST` error event — whose handler sets the status to the error
(`Failed`) state — and starts exactly one reconnection attempt; a failed
attempt emits a further error event (carrying the underlying failure code)
and leaves the status in the error state, so the next tick starts zero
attempts: the service is NOT eligible for automatic retry until it is
connected again.  A successful attempt restores `'connected'`.  No tick
ever starts more than one attempt, and no attempt starts while the status
is not `'connected'` (the status is cleared to the error state before the
attempt begins), so two attempts are never in flight concurrently. -/
theorem C2_zero_peer_tick (env env2 : ReconEnv) (s : WakuState) (n : NodeModel)
    (hnode : s.node = some n) (hzero : n.connections = 0)
    (hconn : s.status = .connected) :
    (monitorTick env s).2 = 1 ∧
    ((∀ x ∈ env.bootstrap, x.outcome.isOk = false) →
      (monitorTick env s).1.status = .error ∧
      (monitorTick env2 (monitorTick env s).1).2 = 0 ∧
      (monitorTick env s).1.events = s.events ++
        [.statusChange .error,
         .errorEvent (WakuError "Lost connection to all peers" "PEERS_LOST" []),
         .errorEvent (WakuError "Failed to connect to any bootstrap node" "BOOTSTRAP_FAILED"
           (env.bootstrap.map Candidate.errMsg))]) ∧
    ((connectToBootstrapNodes env.bootstrap).2 = .ok () → env.waitResult = .ok () →
      (monitorTick env s).1.status = .connected) ∧
    (∀ env3 : ReconEnv, ∀ s3 : WakuState, s3.status ≠ .connected →
      (monitorTick env3 s3).2 = 0) ∧
    (∀ env3 : ReconEnv, ∀ s3 : WakuState, (monitorTick env3 s3).2 ≤ 1) := by
  have hone : (monitorTick env s).2 = 1 := by
    unfold monitorTick
    rw [hnode]
    simp only [hzero, hconn, and_self, if_true]
  refine ⟨hone, ?_, ?_, ?_, ?_⟩
  · intro hfail
    have hb : (connectToBootstrapNodes env.bootstrap).2 =
        .error (WakuError "Failed to connect to any bootstrap node" "BOOTSTRAP_FAILED"
          (env.bootstrap.map Candidate.errMsg)) := by
      unfold connectToBootstrapNodes
      rw [bootstrapLoop_all_fail env.bootstrap hfail]
      simp
    have hr : monitorTick env s =
        ({ s with
            status := .error,
            events := s.events ++
              [.statusChange .error,
               .errorEvent (WakuError "Lost connection to all peers" "PEERS_LOST" []),
               .errorEvent (WakuError "Failed to connect to any bootstrap node"
                 "BOOTSTRAP_FAILED" (env.bootstrap.map Candidate.errMsg))] }, 1) := by
      unfold monitorTick
      rw [hnode]
      simp only [hzero, hconn, and_self, if_true]
      unfold handleError setStatus attemptReconnection
      rw [if_pos (by rw [hconn]; simp)]
      simp only [hb]
      unfold handleError setStatus
      simp [hnode]
    rw [hr]
    refine ⟨rfl, ?_, by simp⟩
    unfold monitorTick
    cases hn2 : ({ s with
        status := ServiceStatus.error,
        events := s.events ++
          [.statusChange .error,
           .errorEvent (WakuError "Lost connection to all peers" "PEERS_LOST" []),
           .errorEvent (WakuError "Failed to connect to any bootstrap node"
             "BOOTSTRAP_FAILED" (env.bootstrap.map Candidate.errMsg))] } : WakuState).node with
    | none => simp
    | some n2 => simp
  · intro hb hw
    unfold monitorTick
    rw [hnode]
    simp only [hzero, hconn, and_self, if_true]
    unfold handleError setStatus attemptReconnection
    rw [if_pos (by rw [hconn]; simp)]
    simp only [hb]
    unfold waitForPeers
    rw [hw]
    unfold setStatus
    simp
  · intro env3 s3 hst
    unfold monitorTick
    cases hn3 : s3.node with
    | none => rfl
    | some n3 => simp [hst]
  · intro env3 s3
    unfold monitorTick
    cases hn3 : s3.node with
    | none => simp
    | some n3 =>
      by_cases hc : n3.connections = 0 ∧ s3.status = ServiceStatus.connected
      · simp [hc]
      · simp [hc]

/-- C2 witness: in the concrete zero-peer Connected state with an
unreachable bootstrap candidate, the tick starts exactly one reconnection
attempt and ends in the error state. -/
theorem C2_zero_peer_tick_witness :
    (monitorTick ⟨[⟨"B", .error "eB"⟩], .ok ()⟩
      ⟨some ⟨0, false⟩, .connected, true, [], [], 2⟩).2 = 1 ∧
    (monitorTick ⟨[⟨"B", .error "eB"⟩], .ok ()⟩
      ⟨some ⟨0, false⟩, .connected, true, [], [], 2⟩).1.status = .error := by
  have h := C2_zero_peer_tick ⟨[⟨"B", .error "eB"⟩], .ok ()⟩ ⟨[⟨"B", .error "eB"⟩], .ok ()⟩
    ⟨some ⟨0, false⟩, .connected, true, [], [], 2⟩ ⟨0, false⟩ rfl rfl rfl
  exact ⟨h.1, (h.2.1 (by decide)).1⟩

end WakuCodex.Waku
